import Mathlib

/-!
Shallow embedding of the tether-router-monitor pipeline (src/main.go).

Data model, defensive parsers, the merge (inner join), per-record metric
emission and the per-tick collection cycle are translated from the Go
source.  Machine floats are modelled by `ℚ` (all values the claims touch
are exact decimals); `time.Now()` is modelled by reading successive
samples of an abstract clock sequence `clock : Nat → Nat`, one sample per
call in program order; external processes (`ifdev`, `mwan3ifstatus`,
`ifconfig`, `ifusb`) are modelled by their decoded results, `none`
standing for a failed invocation.
-/

/-- `Ifdev` (src/main.go:21): one interface-inventory record. -/
structure Ifdev where
  interface : String
  device : String
  deriving DecidableEq

/-- `Mwan3ifstatus` (src/main.go:26): one failover-status record. -/
structure Mwan3ifstatus where
  interface : String
  status : String
  onlineTime : String
  uptime : String
  tracking : String
  deriving DecidableEq

/-- `CombinedData` (src/main.go:34): the merged per-interface record. -/
structure CombinedData where
  interface : String
  device : String
  status : String
  onlineTime : String
  uptime : String
  tracking : String
  rx : Int
  tx : Int
  deriving DecidableEq

/-- `NetworkTraffic` (src/main.go:45): per-device byte counters. -/
structure NetworkTraffic where
  interface : String
  rx : Int
  tx : Int
  deriving DecidableEq

/-- The Go zero value `NetworkTraffic{}`, produced by a map lookup miss. -/
def zeroTraffic : NetworkTraffic := { interface := "", rx := 0, tx := 0 }

/-- Digits of a parsed floating-point literal: sign, integer digits value,
fractional digits value and count.  Intermediate, fully computable form of
the result of Go `strconv.ParseFloat`. -/
structure FloatDigits where
  negative : Bool
  intVal : Nat
  fracVal : Nat
  fracLen : Nat
  deriving DecidableEq

/-- Value of a string of decimal digits. -/
def digitsToNat (cs : List Char) : Nat :=
  cs.foldl (fun n c => 10 * n + (c.toNat - 48)) 0

/-- Digits of the unsigned part of a float literal: decimal digits with an
optional fractional part (at least one digit overall), nothing trailing. -/
def parseDigitsPart (cs : List Char) : Option FloatDigits :=
  let intPart := cs.takeWhile Char.isDigit
  let rest := cs.dropWhile Char.isDigit
  if rest.isEmpty then
    if intPart.isEmpty then none
    else some ⟨false, digitsToNat intPart, 0, 0⟩
  else if rest.head? = some '.' then
    let fracPart := rest.tail.takeWhile Char.isDigit
    if (rest.tail.dropWhile Char.isDigit).isEmpty && !(intPart.isEmpty && fracPart.isEmpty) then
      some ⟨false, digitsToNat intPart, digitsToNat fracPart, fracPart.length⟩
    else none
  else none

/-- Digit-level model of Go `strconv.ParseFloat(s, 64)`: an optional sign
followed by a decimal numeral; `none` models a non-nil error. -/
def parseFloatD (s : String) : Option FloatDigits :=
  let cs := s.toList
  if cs.head? = some '-' then
    (parseDigitsPart cs.tail).map (fun d => { d with negative := true })
  else if cs.head? = some '+' then parseDigitsPart cs.tail
  else parseDigitsPart cs

/-- The rational value denoted by a parsed float literal. -/
def floatVal (d : FloatDigits) : ℚ :=
  let mag : ℚ := (d.intVal : ℚ) + (d.fracVal : ℚ) / ((10 : ℚ) ^ d.fracLen)
  if d.negative then -mag else mag

/-- Model of Go `strconv.ParseFloat(s, 64)` over `ℚ`. -/
def parseFloatQ (s : String) : Option ℚ :=
  (parseFloatD s).map floatVal

/-- Model of Go `strings.Split` on a single-character separator
(accumulator-passing worker). -/
def splitOnCharAux (c : Char) : List Char → List Char → List (List Char)
  | [], acc => [acc.reverse]
  | x :: xs, acc =>
    if x = c then acc.reverse :: splitOnCharAux c xs []
    else splitOnCharAux c xs (x :: acc)

/-- Model of Go `strings.Split(s, c)` for a one-character separator. -/
def splitOnChar (c : Char) (s : String) : List String :=
  (splitOnCharAux c s.toList []).map (fun l => String.mk l)

/-- Model of Go `strings.TrimSuffix(s, suf)` for a one-character suffix. -/
def trimSuffix (s : String) (suf : Char) : String :=
  match s.toList.getLast? with
  | some c => if c = suf then String.mk s.toList.dropLast else s
  | none => s

/-- `parseUptimeToSeconds` (src/main.go:102): split on colons, require
exactly three parts, trim the `h`/`m`/`s` suffixes, parse each part as a
float; any failure yields 0, otherwise `h*3600 + m*60 + s`. -/
def parseUptimeToSeconds (uptime : String) : ℚ :=
  match splitOnChar ':' uptime with
  | [p0, p1, p2] =>
    match parseFloatQ (trimSuffix p0 'h') with
    | none => 0
    | some hours =>
      match parseFloatQ (trimSuffix p1 'm') with
      | none => 0
      | some minutes =>
        match parseFloatQ (trimSuffix p2 's') with
        | none => 0
        | some seconds => hours * 3600 + minutes * 60 + seconds
  | _ => 0

/-- `filterUSBInterfaces` (src/main.go:76): keep records whose device name
has length over 2 and begins with the three characters `usb`. -/
def filterUSBInterfaces (ifdevData : List Ifdev) : List Ifdev :=
  ifdevData.filter (fun item => 2 < item.device.length && item.device.take 3 == "usb")

/-- The `ifdevMap` built inside `mergeData` (src/main.go:179): a map from
interface name to inventory record, later entries overwriting earlier
ones. -/
def ifdevMapOf (ifdevData : List Ifdev) : String → Option Ifdev :=
  ifdevData.foldl (fun m ifdev => fun k => if k = ifdev.interface then some ifdev else m k)
    (fun _ => none)

/-- The combined record built for one status record on an inventory hit
(src/main.go:187): the traffic lookup defaults to the zero value on a
miss, as a Go map read does. -/
def mkCombined (ifdev : Ifdev) (mwan3 : Mwan3ifstatus)
    (networkTrafficData : String → Option NetworkTraffic) : CombinedData :=
  let traffic := (networkTrafficData ifdev.device).getD zeroTraffic
  { interface := ifdev.interface, device := ifdev.device, status := mwan3.status,
    onlineTime := mwan3.onlineTime, uptime := mwan3.uptime, tracking := mwan3.tracking,
    rx := traffic.rx, tx := traffic.tx }

/-- Body of the merge loop (src/main.go:185): on an inventory hit append
one combined record, on a miss keep the accumulator unchanged. -/
def mergeStep (ifdevMap : String → Option Ifdev)
    (networkTrafficData : String → Option NetworkTraffic)
    (combined : List CombinedData) (mwan3 : Mwan3ifstatus) : List CombinedData :=
  match ifdevMap mwan3.interface with
  | some ifdev => combined ++ [mkCombined ifdev mwan3 networkTrafficData]
  | none => combined

/-- `mergeData` (src/main.go:175): build the interface map, then walk the
status records in order, joining each against the map. -/
def mergeData (ifdevData : List Ifdev) (mwan3Data : List Mwan3ifstatus)
    (networkTrafficData : String → Option NetworkTraffic) : List CombinedData :=
  mwan3Data.foldl (mergeStep (ifdevMapOf ifdevData) networkTrafficData) []

/-- `promremote.Label`: one name/value label pair. -/
structure PromLabel where
  name : String
  value : String
  deriving DecidableEq

/-- `promremote.Datapoint`: one timestamped sample.  The instant is a
sample of the abstract clock. -/
structure Datapoint where
  timestamp : Nat
  value : ℚ
  deriving DecidableEq

/-- `promremote.TimeSeries`: a label set and one datapoint. -/
structure TimeSeries where
  labels : List PromLabel
  datapoint : Datapoint
  deriving DecidableEq

/-- One appended series (src/main.go:311 and following): the fixed
`__name__`/`device`/`interface` label set and one timestamped value. -/
def mkSeries (metricName device iface : String) (ts : Nat) (v : ℚ) : TimeSeries :=
  { labels := [⟨"__name__", metricName⟩, ⟨"device", device⟩, ⟨"interface", iface⟩],
    datapoint := ⟨ts, v⟩ }

/-- The seven series appended for one combined record
(src/main.go:289-393), in program order.  Each `time.Now()` call is
modelled as the next sample of `clock`, starting at call index `n`:
the i-th appended series reads `clock (n+i)`. -/
def buildRecordSeries (device : String) (data : CombinedData) (clock : Nat → Nat)
    (n : Nat) : List TimeSeries :=
  [mkSeries "tether_iface_up_time" device data.interface (clock n)
    (parseUptimeToSeconds data.uptime),
   mkSeries "tether_iface_online_time" device data.interface (clock (n + 1))
    (parseUptimeToSeconds data.onlineTime),
   mkSeries "tether_iface_status_online" device data.interface (clock (n + 2))
    (if data.status = "online" then 1 else 0),
   mkSeries "tether_iface_status_enabled" device data.interface (clock (n + 3))
    (if data.status ≠ "disabled" then 1 else 0),
   mkSeries "tether_iface_status_tracking" device data.interface (clock (n + 4))
    (if data.tracking = "active" then 1 else 0),
   mkSeries "tether_iface_tx" device data.interface (clock (n + 5)) (data.tx : ℚ),
   mkSeries "tether_iface_rx" device data.interface (clock (n + 6)) (data.rx : ℚ)]

/-- The per-record loop of `main` (src/main.go:281): look the record's
device field up with `getUSBDevice` (modelled by the oracle `usbLookup`);
on failure skip the record (`continue`, no clock samples are consumed),
on success append its seven series and move to the next record. -/
def processRecords (usbLookup : String → Option String) (clock : Nat → Nat) :
    List CombinedData → Nat → List TimeSeries
  | [], _ => []
  | data :: rest, n =>
    match usbLookup data.device with
    | none => processRecords usbLookup clock rest n
    | some device =>
      buildRecordSeries device data clock n ++ processRecords usbLookup clock rest (n + 7)

/-- Inputs of one tick of the main loop: the results of the three data
sources (`none` models a failed invocation), the `getUSBDevice` oracle
and the clock. -/
structure CycleInput where
  ifdevRes : Option (List Ifdev)
  mwanRes : Option (List Mwan3ifstatus)
  trafficRes : Option (String → Option NetworkTraffic)
  usbLookup : String → Option String
  clock : Nat → Nat

/-- Observable outcome of one tick: which sources were invoked, whether
`pushMetrics` was reached, whether the loop was exited, and the series
list. -/
structure CycleOutcome where
  invokedMwan : Bool
  invokedTraffic : Bool
  pushed : Bool
  exits : Bool
  series : List TimeSeries

/-- One tick of the main loop (src/main.go:255-397).  An `ifdev` failure
`break`s out of the `select` before `mwan3ifstatus` and the traffic read;
an `mwan3ifstatus` failure `break`s before the traffic read; a traffic
failure is only logged, leaving the nil map (every lookup misses), and
the cycle proceeds to merge, build and push.  A plain `break` never exits
the labelled loop, so no tick sets `exits`. -/
def runCycle (inp : CycleInput) : CycleOutcome :=
  match inp.ifdevRes with
  | none =>
    { invokedMwan := false, invokedTraffic := false, pushed := false, exits := false,
      series := [] }
  | some ifdevData0 =>
    match inp.mwanRes with
    | none =>
      { invokedMwan := true, invokedTraffic := false, pushed := false, exits := false,
        series := [] }
    | some mwan3Data =>
      let networkTraffic : String → Option NetworkTraffic :=
        match inp.trafficRes with
        | none => fun _ => none
        | some t => t
      let ifdevData := filterUSBInterfaces ifdevData0
      let combinedData := mergeData ifdevData mwan3Data networkTraffic
      let timeSeriesList := processRecords inp.usbLookup inp.clock combinedData 0
      { invokedMwan := true, invokedTraffic := true, pushed := true, exits := false,
        series := timeSeriesList }

/-- A successful digit parse with no fraction and no sign denotes the
integer value of its digits. -/
theorem parseFloatQ_of_natDigits (s : String) (n : Nat)
    (h : parseFloatD s = some ⟨false, n, 0, 0⟩) : parseFloatQ s = some (n : ℚ) := by
  simp [parseFloatQ, h, floatVal]

/-- A successful digit parse with no fraction and a minus sign denotes the
negated integer value of its digits. -/
theorem parseFloatQ_of_negDigits (s : String) (n : Nat)
    (h : parseFloatD s = some ⟨true, n, 0, 0⟩) : parseFloatQ s = some (-(n : ℚ)) := by
  simp [parseFloatQ, h, floatVal]

/-- A failed digit parse is a failed float parse. -/
theorem parseFloatQ_of_none (s : String)
    (h : parseFloatD s = none) : parseFloatQ s = none := by
  simp [parseFloatQ, h]

/-- Evaluation rule for `parseUptimeToSeconds` when all three components
parse. -/
theorem parseUptimeToSeconds_eq_of (u a b c : String) (x y z : ℚ)
    (hsplit : splitOnChar ':' u = [a, b, c])
    (hx : parseFloatQ (trimSuffix a 'h') = some x)
    (hy : parseFloatQ (trimSuffix b 'm') = some y)
    (hz : parseFloatQ (trimSuffix c 's') = some z) :
    parseUptimeToSeconds u = x * 3600 + y * 60 + z := by
  unfold parseUptimeToSeconds
  rw [hsplit]
  dsimp only
  rw [hx, hy, hz]

/-- The merge loop grows its accumulator by one joined record per
inventory hit: the fold is an append of a `filterMap`. -/
theorem mergeFoldl_eq (ifdevMap : String → Option Ifdev)
    (t : String → Option NetworkTraffic) :
    ∀ (l : List Mwan3ifstatus) (acc : List CombinedData),
      l.foldl (mergeStep ifdevMap t) acc
        = acc ++ l.filterMap (fun mwan3 => (ifdevMap mwan3.interface).map
            (fun ifdev => mkCombined ifdev mwan3 t)) := by
  intro l
  induction l with
  | nil => intro acc; simp
  | cons m rest ih =>
    intro acc
    rw [List.foldl_cons, ih, List.filterMap_cons]
    cases h : ifdevMap m.interface with
    | none => simp [mergeStep, h]
    | some d => simp [mergeStep, h]

/-- `mergeData` is the `filterMap` of the per-status join over the status
list: one output per inventory hit, in status order, misses dropped. -/
theorem mergeData_eq_filterMap (ifdevData : List Ifdev) (mwan3Data : List Mwan3ifstatus)
    (t : String → Option NetworkTraffic) :
    mergeData ifdevData mwan3Data t
      = mwan3Data.filterMap (fun mwan3 => (ifdevMapOf ifdevData mwan3.interface).map
          (fun ifdev => mkCombined ifdev mwan3 t)) := by
  unfold mergeData
  rw [mergeFoldl_eq]
  simp

/-- With the nil traffic map, the joined record is the joined record under
any traffic map with its counters zeroed. -/
theorem mkCombined_nilTraffic (ifdev : Ifdev) (mwan3 : Mwan3ifstatus)
    (t : String → Option NetworkTraffic) :
    mkCombined ifdev mwan3 (fun _ => none)
      = { mkCombined ifdev mwan3 t with rx := 0, tx := 0 } := by
  simp [mkCombined, zeroTraffic]

/-- A record whose device lookup fails is skipped in place: the series of
the surrounding records are unchanged, including their clock samples. -/
theorem processRecords_skip (usbLookup : String → Option String) (clock : Nat → Nat)
    (data : CombinedData) (h : usbLookup data.device = none) :
    ∀ (pre post : List CombinedData) (n : Nat),
      processRecords usbLookup clock (pre ++ data :: post) n
        = processRecords usbLookup clock (pre ++ post) n := by
  intro pre
  induction pre with
  | nil => intro post n; simp [processRecords, h]
  | cons x rest ih =>
    intro post n
    simp only [List.cons_append, processRecords]
    cases hx : usbLookup x.device with
    | none => simp [ih]
    | some dev => simp [ih]

/-- Fixture: the inventory record of the end-to-end scenario. -/
def ifdevWan1 : Ifdev := { interface := "wan1", device := "usb0" }

/-- Fixture: the failover-status record of the end-to-end scenario. -/
def statusWan1 : Mwan3ifstatus :=
  { interface := "wan1", status := "online", onlineTime := "0h:10m:00s",
    uptime := "1h:00m:00s", tracking := "active" }

/-- Fixture: the record the merge produces for the scenario with no
traffic data. -/
def combinedWan1 : CombinedData := mkCombined ifdevWan1 statusWan1 (fun _ => none)

/-- Fixture: one cycle whose traffic step failed, with the identity clock
and a device-label oracle that always answers `Modem`. -/
def cycleNoTraffic : CycleInput :=
  { ifdevRes := some [ifdevWan1], mwanRes := some [statusWan1], trafficRes := none,
    usbLookup := fun _ => some "Modem", clock := fun n => n }

/-- C8: the duration parser satisfies the three concrete examples of the
spec: `"2h:03m:04s" ↦ 7384`, `"" ↦ 0`, `"garbage" ↦ 0`. -/
theorem claim_C8 :
    parseUptimeToSeconds "2h:03m:04s" = 7384 ∧
    parseUptimeToSeconds "" = 0 ∧
    parseUptimeToSeconds "garbage" = 0 := by
  refine ⟨?_, ?_, ?_⟩
  · have hx : parseFloatQ (trimSuffix "2h" 'h') = some ((2 : Nat) : ℚ) :=
      parseFloatQ_of_natDigits _ _ (by decide)
    have hy : parseFloatQ (trimSuffix "03m" 'm') = some ((3 : Nat) : ℚ) :=
      parseFloatQ_of_natDigits _ _ (by decide)
    have hz : parseFloatQ (trimSuffix "04s" 's') = some ((4 : Nat) : ℚ) :=
      parseFloatQ_of_natDigits _ _ (by decide)
    rw [parseUptimeToSeconds_eq_of "2h:03m:04s" "2h" "03m" "04s" _ _ _ (by decide) hx hy hz]
    norm_num
  · unfold parseUptimeToSeconds
    rw [show splitOnChar ':' "" = [""] from by decide]
  · unfold parseUptimeToSeconds
    rw [show splitOnChar ':' "garbage" = ["garbage"] from by decide]

/-- C4 counterexample: on `"-1h:03m:04s"` the duration parser returns
`-3416`, a negative value, refuting the claim that the result is always
greater than or equal to 0. -/
theorem claim_C4_counterexample :
    parseUptimeToSeconds "-1h:03m:04s" = -3416 ∧
    parseUptimeToSeconds "-1h:03m:04s" < 0 := by
  have hx : parseFloatQ (trimSuffix "-1h" 'h') = some (-((1 : Nat) : ℚ)) :=
    parseFloatQ_of_negDigits _ _ (by decide)
  have hy : parseFloatQ (trimSuffix "03m" 'm') = some ((3 : Nat) : ℚ) :=
    parseFloatQ_of_natDigits _ _ (by decide)
  have hz : parseFloatQ (trimSuffix "04s" 's') = some ((4 : Nat) : ℚ) :=
    parseFloatQ_of_natDigits _ _ (by decide)
  rw [parseUptimeToSeconds_eq_of "-1h:03m:04s" "-1h" "03m" "04s" _ _ _ (by decide) hx hy hz]
  norm_num

/-- C4 amended: the duration parser is a total function (it never signals
an error), and its result is nonnegative unless some colon-separated
component, after suffix trimming, parses as a negative number: every
input either yields a nonnegative result, or exhibits three components
one of which parses negative. -/
theorem claim_C4_amended (u : String) :
    0 ≤ parseUptimeToSeconds u ∨
    ∃ a b c, splitOnChar ':' u = [a, b, c] ∧
      ∃ x y z : ℚ, parseFloatQ (trimSuffix a 'h') = some x ∧
        parseFloatQ (trimSuffix b 'm') = some y ∧
        parseFloatQ (trimSuffix c 's') = some z ∧
        (x < 0 ∨ y < 0 ∨ z < 0) := by
  rcases hs : splitOnChar ':' u with _ | ⟨a, _ | ⟨b, _ | ⟨c, _ | ⟨d, rest⟩⟩⟩⟩
  · left
    exact ge_of_eq (by unfold parseUptimeToSeconds; rw [hs])
  · left
    exact ge_of_eq (by unfold parseUptimeToSeconds; rw [hs])
  · left
    exact ge_of_eq (by unfold parseUptimeToSeconds; rw [hs])
  · rcases hx : parseFloatQ (trimSuffix a 'h') with _ | x
    · left
      exact ge_of_eq (by unfold parseUptimeToSeconds; rw [hs]; dsimp only; rw [hx])
    · rcases hy : parseFloatQ (trimSuffix b 'm') with _ | y
      · left
        exact ge_of_eq (by unfold parseUptimeToSeconds; rw [hs]; dsimp only; rw [hx, hy])
      · rcases hz : parseFloatQ (trimSuffix c 's') with _ | z
        · left
          exact ge_of_eq (by unfold parseUptimeToSeconds; rw [hs]; dsimp only; rw [hx, hy, hz])
        · by_cases hneg : x < 0 ∨ y < 0 ∨ z < 0
          · exact Or.inr ⟨a, b, c, rfl, x, y, z, hx, hy, hz, hneg⟩
          · left
            push_neg at hneg
            obtain ⟨hx0, hy0, hz0⟩ := hneg
            rw [parseUptimeToSeconds_eq_of u a b c x y z hs hx hy hz]
            have h1 : 0 ≤ x * 3600 := mul_nonneg hx0 (by norm_num)
            have h2 : 0 ≤ y * 60 := mul_nonneg hy0 (by norm_num)
            linarith
  · left
    exact ge_of_eq (by unfold parseUptimeToSeconds; rw [hs])

/-- C1 counterexample: in a cycle whose traffic step failed, the one
combined record still emits 7 series, not 5, and the traffic-transmitted
and traffic-received series are among them — refuting the claim that the
two traffic metrics are excluded when traffic collection failed. -/
theorem claim_C1_counterexample :
    (runCycle cycleNoTraffic).series.length = 7 ∧
    ((runCycle cycleNoTraffic).series.get? 5).map (fun ts => ts.labels)
      = some [⟨"__name__", "tether_iface_tx"⟩, ⟨"device", "Modem"⟩, ⟨"interface", "wan1"⟩] ∧
    ((runCycle cycleNoTraffic).series.get? 6).map (fun ts => ts.labels)
      = some [⟨"__name__", "tether_iface_rx"⟩, ⟨"device", "Modem"⟩, ⟨"interface", "wan1"⟩] := by
  refine ⟨by decide, by decide, by decide⟩

/-- C1 amended: in a cycle whose traffic step failed, the emitted series
are exactly those of the per-record loop over the merge with the nil
traffic map, and every combined record of that merge still emits exactly
7 series, the traffic-transmitted and traffic-received points included,
both carrying the value 0. -/
theorem claim_C1_amended (idata : List Ifdev) (mdata : List Mwan3ifstatus)
    (usb : String → Option String) (clock : Nat → Nat) (dev : String)
    (data : CombinedData) (n : Nat)
    (hmem : data ∈ mergeData (filterUSBInterfaces idata) mdata (fun _ => none)) :
    (runCycle ⟨some idata, some mdata, none, usb, clock⟩).series
      = processRecords usb clock
          (mergeData (filterUSBInterfaces idata) mdata (fun _ => none)) 0 ∧
    (buildRecordSeries dev data clock n).length = 7 ∧
    (buildRecordSeries dev data clock n).get? 5
      = some (mkSeries "tether_iface_tx" dev data.interface (clock (n + 5)) 0) ∧
    (buildRecordSeries dev data clock n).get? 6
      = some (mkSeries "tether_iface_rx" dev data.interface (clock (n + 6)) 0) := by
  have hzero : data.rx = 0 ∧ data.tx = 0 := by
    rw [mergeData_eq_filterMap] at hmem
    obtain ⟨mwan3, _, hsome⟩ := List.mem_filterMap.1 hmem
    cases hlook : ifdevMapOf (filterUSBInterfaces idata) mwan3.interface with
    | none => rw [hlook] at hsome; simp at hsome
    | some ifdev =>
      rw [hlook] at hsome
      simp at hsome
      subst hsome
      constructor <;> simp [mkCombined, zeroTraffic]
  refine ⟨rfl, by simp [buildRecordSeries], ?_, ?_⟩
  · simp [buildRecordSeries, hzero.2]
  · simp [buildRecordSeries, hzero.1]

/-- C1 witness: the amended theorem applied to the concrete no-traffic
cycle and its single combined record. -/
theorem claim_C1_witness :
    (runCycle ⟨some [ifdevWan1], some [statusWan1], none, fun _ => some "Modem", fun n => n⟩).series
      = processRecords (fun _ => some "Modem") (fun n => n)
          (mergeData (filterUSBInterfaces [ifdevWan1]) [statusWan1] (fun _ => none)) 0 ∧
    (buildRecordSeries "Modem" combinedWan1 (fun n => n) 0).length = 7 ∧
    (buildRecordSeries "Modem" combinedWan1 (fun n => n) 0).get? 5
      = some (mkSeries "tether_iface_tx" "Modem" combinedWan1.interface ((fun n => n) (0 + 5)) 0) ∧
    (buildRecordSeries "Modem" combinedWan1 (fun n => n) 0).get? 6
      = some (mkSeries "tether_iface_rx" "Modem" combinedWan1.interface ((fun n => n) (0 + 6)) 0) :=
  claim_C1_amended [ifdevWan1] [statusWan1] (fun _ => some "Modem") (fun n => n) "Modem"
    combinedWan1 0 (by decide)

/-- C2 counterexample: with a clock whose successive samples differ, two
series of one combined record carry different timestamps (0 and 1) —
refuting the claim that all points of a record share one timestamp taken
once per record. -/
theorem claim_C2_counterexample :
    ((buildRecordSeries "Modem" combinedWan1 (fun n => n) 0).get? 0).map
        (fun ts => ts.datapoint.timestamp) = some 0 ∧
    ((buildRecordSeries "Modem" combinedWan1 (fun n => n) 0).get? 1).map
        (fun ts => ts.datapoint.timestamp) = some 1 := by
  refine ⟨by decide, by decide⟩

/-- C2 amended: the seven series built for one combined record sample the
clock once per metric, in program order: their timestamps are the seven
successive clock samples starting at the record's first call index. -/
theorem claim_C2_amended (dev : String) (data : CombinedData) (clock : Nat → Nat) (n : Nat) :
    (buildRecordSeries dev data clock n).map (fun ts => ts.datapoint.timestamp)
      = [clock n, clock (n + 1), clock (n + 2), clock (n + 3), clock (n + 4),
         clock (n + 5), clock (n + 6)] := by
  simp [buildRecordSeries, mkSeries]

/-- C3 counterexample: when the interface-inventory invocation fails, the
failover-status invocation does not run — refuting the claim that the
three data-source invocations are independent. -/
theorem claim_C3_counterexample :
    (runCycle { ifdevRes := none, mwanRes := some [], trafficRes := some (fun _ => none),
                usbLookup := fun _ => none, clock := fun n => n }).invokedMwan = false := by
  rfl

/-- C3 amended: the failover-status source is invoked exactly when the
inventory step succeeded, the traffic source exactly when both earlier
steps succeeded; no tick exits the loop; a tick whose inventory or
failover-status invocation failed emits nothing (no series and no push);
and when the first two steps succeed the cycle always completes through
the push, regardless of the traffic result. -/
theorem claim_C3_amended (inp : CycleInput) :
    (runCycle inp).invokedMwan = inp.ifdevRes.isSome ∧
    (runCycle inp).invokedTraffic = (inp.ifdevRes.isSome && inp.mwanRes.isSome) ∧
    (runCycle inp).exits = false ∧
    ((inp.ifdevRes.isSome = false ∨ inp.mwanRes.isSome = false) →
      (runCycle inp).series = [] ∧ (runCycle inp).pushed = false) ∧
    (inp.ifdevRes.isSome = true → inp.mwanRes.isSome = true →
      (runCycle inp).pushed = true) := by
  rcases inp with ⟨ifdevRes, mwanRes, trafficRes, usb, clock⟩
  cases ifdevRes <;> cases mwanRes <;> simp [runCycle]

/-- Fixture: one cycle whose interface-inventory invocation failed. -/
def cycleNoInventory : CycleInput :=
  { ifdevRes := none, mwanRes := some [statusWan1], trafficRes := some (fun _ => none),
    usbLookup := fun _ => some "Modem", clock := fun n => n }

/-- C3 witness: the amended theorem applied to the concrete no-traffic
cycle, discharging both success hypotheses, and to the concrete
failed-inventory cycle, discharging the failure hypothesis: that cycle
emits no series and performs no push. -/
theorem claim_C3_witness :
    (runCycle cycleNoTraffic).pushed = true ∧
    (runCycle cycleNoInventory).series = [] ∧
    (runCycle cycleNoInventory).pushed = false :=
  ⟨(claim_C3_amended cycleNoTraffic).2.2.2.2 (by decide) (by decide),
   ((claim_C3_amended cycleNoInventory).2.2.2.1 (Or.inl (by decide))).1,
   ((claim_C3_amended cycleNoInventory).2.2.2.1 (Or.inl (by decide))).2⟩

/-- Fixture: a device-label oracle keyed by interface name, as the claim
describes the lookup: it succeeds on the interface name `wan1` and fails
on everything else, in particular on the device name `usb0`. -/
def lookupByIfaceName : String → Option String :=
  fun s => if s = "wan1" then some "Modem" else none

/-- C5 counterexample: under an oracle that succeeds on the record's
interface name and fails on its device name, the record is dropped —
refuting the claim that the device-label lookup is invoked with the
record's interface name. -/
theorem claim_C5_counterexample :
    processRecords lookupByIfaceName (fun n => n) [combinedWan1] 0 = [] ∧
    lookupByIfaceName combinedWan1.interface = some "Modem" ∧
    combinedWan1.device = "usb0" := by
  refine ⟨by decide, by decide, by decide⟩

/-- C5 amended: the device-label lookup is invoked with the record's
device field; when that lookup fails for one record, only that record is
skipped (the surrounding records' series, clock samples included, are
unchanged), and when it succeeds the record's seven series are emitted. -/
theorem claim_C5_amended (usbLookup : String → Option String) (clock : Nat → Nat)
    (data : CombinedData) :
    (∀ (pre post : List CombinedData) (n : Nat), usbLookup data.device = none →
      processRecords usbLookup clock (pre ++ data :: post) n
        = processRecords usbLookup clock (pre ++ post) n) ∧
    (∀ (rest : List CombinedData) (n : Nat) (dev : String),
      usbLookup data.device = some dev →
      processRecords usbLookup clock (data :: rest) n
        = buildRecordSeries dev data clock n ++ processRecords usbLookup clock rest (n + 7)) := by
  constructor
  · intro pre post n h
    exact processRecords_skip usbLookup clock data h pre post n
  · intro rest n dev h
    simp [processRecords, h]

/-- C5 witness: the amended theorem applied to the concrete record, with a
failing and a succeeding device lookup. -/
theorem claim_C5_witness :
    processRecords lookupByIfaceName (fun n => n) ([combinedWan1] ++ combinedWan1 :: []) 0
      = processRecords lookupByIfaceName (fun n => n) ([combinedWan1] ++ []) 0 ∧
    processRecords (fun _ => some "Modem") (fun n => n) (combinedWan1 :: []) 0
      = buildRecordSeries "Modem" combinedWan1 (fun n => n) 0
          ++ processRecords (fun _ => some "Modem") (fun n => n) [] (0 + 7) :=
  ⟨(claim_C5_amended lookupByIfaceName (fun n => n) combinedWan1).1 [combinedWan1] [] 0
      (by decide),
   (claim_C5_amended (fun _ => some "Modem") (fun n => n) combinedWan1).2 [] 0 "Modem"
      (by decide)⟩

/-- C6: the merge is an inner join on interface name — it equals the
`filterMap` over the status records that keeps exactly the records whose
interface name hits the inventory map (so output order follows status
order and each status record yields exactly one combined record on a
hit); and a status record's interface name is an inventory key exactly
when its joined record appears in the output. -/
theorem claim_C6 (ifdevData : List Ifdev) (mwan3Data : List Mwan3ifstatus)
    (t : String → Option NetworkTraffic) :
    mergeData ifdevData mwan3Data t
      = mwan3Data.filterMap (fun mwan3 => (ifdevMapOf ifdevData mwan3.interface).map
          (fun ifdev => mkCombined ifdev mwan3 t)) ∧
    ∀ mwan3 ∈ mwan3Data,
      ((ifdevMapOf ifdevData mwan3.interface).isSome = true ↔
        ∃ ifdev, ifdevMapOf ifdevData mwan3.interface = some ifdev ∧
          mkCombined ifdev mwan3 t ∈ mergeData ifdevData mwan3Data t) := by
  refine ⟨mergeData_eq_filterMap ifdevData mwan3Data t, ?_⟩
  intro mwan3 hmem
  constructor
  · intro hsome
    obtain ⟨ifdev, heq⟩ := Option.isSome_iff_exists.1 hsome
    refine ⟨ifdev, heq, ?_⟩
    rw [mergeData_eq_filterMap]
    exact List.mem_filterMap.2 ⟨mwan3, hmem, by rw [heq]; rfl⟩
  · rintro ⟨ifdev, heq, -⟩
    rw [heq]
    rfl

/-- C6 witness: the inner-join equivalence at the concrete scenario
record. -/
theorem claim_C6_witness :
    (ifdevMapOf [ifdevWan1] statusWan1.interface).isSome = true ↔
      ∃ ifdev, ifdevMapOf [ifdevWan1] statusWan1.interface = some ifdev ∧
        mkCombined ifdev statusWan1 (fun _ => none)
          ∈ mergeData [ifdevWan1] [statusWan1] (fun _ => none) :=
  (claim_C6 [ifdevWan1] [statusWan1] (fun _ => none)).2 statusWan1 (by decide)

/-- C7: the three boolean metrics of a record are derived exactly as
status-online = 1 iff status equals `online`, status-enabled = 1 iff
status differs from `disabled`, status-tracking = 1 iff tracking equals
`active`; and for status `disabled` both status-online and
status-enabled carry 0, whatever the tracking value. -/
theorem claim_C7 (dev : String) (data : CombinedData) (clock : Nat → Nat) (n : Nat) :
    (buildRecordSeries dev data clock n).get? 2
      = some (mkSeries "tether_iface_status_online" dev data.interface (clock (n + 2))
          (if data.status = "online" then 1 else 0)) ∧
    (buildRecordSeries dev data clock n).get? 3
      = some (mkSeries "tether_iface_status_enabled" dev data.interface (clock (n + 3))
          (if data.status ≠ "disabled" then 1 else 0)) ∧
    (buildRecordSeries dev data clock n).get? 4
      = some (mkSeries "tether_iface_status_tracking" dev data.interface (clock (n + 4))
          (if data.tracking = "active" then 1 else 0)) ∧
    (data.status = "disabled" →
      ((buildRecordSeries dev data clock n).get? 2).map (fun ts => ts.datapoint.value)
          = some 0 ∧
      ((buildRecordSeries dev data clock n).get? 3).map (fun ts => ts.datapoint.value)
          = some 0) := by
  refine ⟨rfl, rfl, rfl, fun h => ?_⟩
  constructor <;> simp [buildRecordSeries, mkSeries, h]

/-- Fixture: a disabled record with active tracking. -/
def combinedDisabled : CombinedData :=
  { interface := "wan2", device := "usb1", status := "disabled",
    onlineTime := "0h:00m:00s", uptime := "0h:00m:00s", tracking := "active",
    rx := 0, tx := 0 }

/-- C7 witness: the disabled record's status-online and status-enabled
series both carry 0 although its tracking is `active`. -/
theorem claim_C7_witness :
    ((buildRecordSeries "Modem" combinedDisabled (fun n => n) 0).get? 2).map
        (fun ts => ts.datapoint.value) = some 0 ∧
    ((buildRecordSeries "Modem" combinedDisabled (fun n => n) 0).get? 3).map
        (fun ts => ts.datapoint.value) = some 0 :=
  (claim_C7 "Modem" combinedDisabled (fun n => n) 0).2.2.2 (by decide)

/-- C9: a status record whose interface name hits the inventory but whose
resolved device name misses the traffic mapping still yields its combined
record in the merge output, with both counters equal to 0. -/
theorem claim_C9 (ifdevData : List Ifdev) (mwan3Data : List Mwan3ifstatus)
    (t : String → Option NetworkTraffic) (mwan3 : Mwan3ifstatus) (ifdev : Ifdev)
    (hmem : mwan3 ∈ mwan3Data)
    (hhit : ifdevMapOf ifdevData mwan3.interface = some ifdev)
    (hmiss : t ifdev.device = none) :
    mkCombined ifdev mwan3 t ∈ mergeData ifdevData mwan3Data t ∧
    (mkCombined ifdev mwan3 t).rx = 0 ∧ (mkCombined ifdev mwan3 t).tx = 0 := by
  refine ⟨?_, ?_, ?_⟩
  · rw [mergeData_eq_filterMap]
    exact List.mem_filterMap.2 ⟨mwan3, hmem, by rw [hhit]; rfl⟩
  · simp [mkCombined, hmiss, zeroTraffic]
  · simp [mkCombined, hmiss, zeroTraffic]

/-- C9 witness: the concrete scenario record under the empty traffic
mapping. -/
theorem claim_C9_witness :
    mkCombined ifdevWan1 statusWan1 (fun _ => none)
      ∈ mergeData [ifdevWan1] [statusWan1] (fun _ => none) ∧
    (mkCombined ifdevWan1 statusWan1 (fun _ => none)).rx = 0 ∧
    (mkCombined ifdevWan1 statusWan1 (fun _ => none)).tx = 0 :=
  claim_C9 [ifdevWan1] [statusWan1] (fun _ => none) statusWan1 ifdevWan1
    (by decide) (by decide) rfl

/-- C10: with the nil traffic mapping every lookup misses safely, so the
merge is total: it produces exactly the records any traffic mapping would
produce, with both counters zeroed; and the cycle whose traffic step
failed still reaches the push, does not exit the loop, and emits the
series of the per-record loop over that merge. -/
theorem claim_C10 (ifdevData : List Ifdev) (mwan3Data : List Mwan3ifstatus)
    (t : String → Option NetworkTraffic) (usb : String → Option String)
    (clock : Nat → Nat) :
    mergeData ifdevData mwan3Data (fun _ => none)
      = (mergeData ifdevData mwan3Data t).map (fun c => { c with rx := 0, tx := 0 }) ∧
    (runCycle ⟨some ifdevData, some mwan3Data, none, usb, clock⟩).pushed = true ∧
    (runCycle ⟨some ifdevData, some mwan3Data, none, usb, clock⟩).exits = false ∧
    (runCycle ⟨some ifdevData, some mwan3Data, none, usb, clock⟩).series
      = processRecords usb clock
          (mergeData (filterUSBInterfaces ifdevData) mwan3Data (fun _ => none)) 0 := by
  refine ⟨?_, rfl, rfl, rfl⟩
  rw [mergeData_eq_filterMap, mergeData_eq_filterMap, List.map_filterMap]
  apply List.filterMap_congr
  intro m _
  cases h : ifdevMapOf ifdevData m.interface with
  | none => simp
  | some d => simp [mkCombined_nilTraffic d m t]
